import Mathlib

/-!
Shallow embedding of the converter and schema code of
`terraform-provider-vcf` (packages `internal/network`, `internal/sddc`),
with proofs about its required/optional field handling, flattening and
schema construction.

Go values of type `interface\x7b\x7d` are modelled by the inductive `Value`;
a Go `map[string]interface\x7b\x7d` is an association list `AttrMap` (a nil
map is `Option.none` at the call sites that check for it).  A Go function
that can return an error, or panic on a failed type assertion, returns
`Res α`.
-/

namespace Vcf

/-- Dynamic (interface) values as they occur in the attribute maps handled
by the converters: strings, ints, bools, float64s (payload abstracted to an
integer, no claim concerns fractional values), lists, generic maps,
string-to-string maps (a distinct Go dynamic type), and the nil interface. -/
inductive Value where
  | str (s : String)
  | int (n : Int)
  | bool (b : Bool)
  | float (n : Int)
  | list (xs : List Value)
  | map (m : List (String × Value))
  | strMap (m : List (String × String))
  | nil
  deriving Repr

/-- A Go `map[string]interface\x7b\x7d`, as an association list with
first-match lookup. -/
abbrev AttrMap := List (String × Value)

/-- First-match lookup, `Option.none` when the key is absent
(the `v, ok := m[k]` form). -/
def lookup (m : AttrMap) (k : String) : Option Value :=
  match m with
  | [] => none
  | (k', v) :: rest => if k' = k then some v else lookup rest k

/-- Plain Go map indexing `m[k]`: an absent key yields the zero interface
value, i.e. nil. -/
def get (m : AttrMap) (k : String) : Value :=
  (lookup m k).getD .nil

/-- Outcome of running a Go converter: normal return of a value, an error
return (`nil, fmt.Errorf(...)`), or a runtime panic (failed type
assertion). -/
inductive Res (α : Type) where
  | ok (a : α)
  | err (msg : String)
  | panic (msg : String)
  deriving Repr

namespace Res

/-- Sequencing: propagate errors and panics, continue on success. -/
def bind : Res α → (α → Res β) → Res β
  | .ok a, f => f a
  | .err e, _ => .err e
  | .panic p, _ => .panic p

@[simp] theorem bind_ok (a : α) (f : α → Res β) : (Res.ok a).bind f = f a := rfl
@[simp] theorem bind_err (e : String) (f : α → Res β) :
    (Res.err e).bind f = Res.err e := rfl
@[simp] theorem bind_panic (p : String) (f : α → Res β) :
    (Res.panic p).bind f = Res.panic p := rfl

theorem bind_eq_ok {x : Res α} {f : α → Res β} {b : β} :
    x.bind f = .ok b ↔ ∃ a, x = .ok a ∧ f a = .ok b := by
  cases x <;> simp [bind]

end Res

/-- The type assertion `v.(string)`: panics unless the dynamic type is
string. -/
def asString : Value → Res String
  | .str s => .ok s
  | _ => .panic "interface conversion: interface is not string"

/-- The type assertion `v.([]interface\x7b\x7d)`. -/
def asList : Value → Res (List Value)
  | .list xs => .ok xs
  | _ => .panic "interface conversion: interface is not a slice"

/-- The type assertion `v.(map[string]interface\x7b\x7d)`. -/
def asMap : Value → Res AttrMap
  | .map m => .ok m
  | _ => .panic "interface conversion: interface is not a map"

/-- `v == nil` on an interface value. -/
def isNilValue : Value → Bool
  | .nil => true
  | _ => false

/-- Modelled from the spec: `validation_utils.IsEmpty`
(`internal/validation`, not among the sources).  Per the spec's
"required field must be non-empty" / nil-check wording, an interface
value is empty when it is nil or the empty string. -/
def IsEmpty : Value → Bool
  | .nil => true
  | .str s => s = ""
  | _ => false

/-- The Go required-string idiom
`s := object[k].(string); if len(s) == 0 \x7b return nil, fmt.Errorf(msg) \x7d`:
type-assert, then reject the empty string with the given error. -/
def requireString (v : Value) (msg : String) : Res String :=
  (asString v).bind fun s => if s = "" then .err msg else .ok s

/-- The Go optional-string idiom
`if v, ok := object[k]; ok && !IsEmpty(v) \x7b field = v.(string) \x7d`:
the struct field keeps its zero value `""` when the key is absent or its
value is empty, and is set by a (possibly panicking) type assertion
otherwise. -/
def goOptionalString (m : AttrMap) (k : String) : Res String :=
  match lookup m k with
  | none => .ok ""
  | some v => if IsEmpty v then .ok "" else asString v

/-- `models.VMNic` (fields used by the converter; plain Go strings). -/
structure VMNic where
  id : String
  uplink : String := ""
  vdsName : String := ""
  deriving Repr, DecidableEq

/-- `TryConvertToVmNic` from `internal/network/vmnic_subresource.go`:
nil-map check, required `id`, optional `uplink` and `vds_name`. -/
def TryConvertToVmNic (object : Option AttrMap) : Res VMNic :=
  match object with
  | none => .err "cannot convert to VMNic, object is nil"
  | some m =>
    (requireString (get m "id") "cannot convert to VMNic, id is required").bind fun id =>
    (goOptionalString m "uplink").bind fun uplink =>
    (goOptionalString m "vds_name").bind fun vdsName =>
    .ok { id := id, uplink := uplink, vdsName := vdsName }

/-- `models.NsxManagerSpec` as the node converter fills it:
name plus networking details of one NSX manager virtual machine.  The field
set follows the acceptance-test fixture (`nsx_manager_node` blocks). -/
structure NsxManagerSpec where
  name : String
  ipAddress : String := ""
  dnsName : String := ""
  subnetMask : String := ""
  gateway : String := ""
  deriving Repr, DecidableEq

/-- Modelled from the spec: `TryConvertToNsxManagerNodeSpec`
(`internal/network/nsx_manager_node_subresource.go`, not among the
sources).  Per the spec, every converter is the same flat
presence check → type assertion → required-field validation →
optional-field assignment sequence; the node fields are those of the
acceptance-test fixture, with `name` required. -/
def TryConvertToNsxManagerNodeSpec (object : AttrMap) : Res NsxManagerSpec :=
  (requireString (get object "name")
      "cannot convert to NsxManagerSpec, name is required").bind fun name =>
  (goOptionalString object "ip_address").bind fun ip =>
  (goOptionalString object "dns_name").bind fun dns =>
  (goOptionalString object "subnet_mask").bind fun mask =>
  (goOptionalString object "gateway").bind fun gw =>
  .ok { name := name, ipAddress := ip, dnsName := dns,
        subnetMask := mask, gateway := gw }

/-- One iteration of the `nsx_manager_node` loop body: assert the entry to
a map, then convert it. -/
def convertNsxManagerEntry (v : Value) : Res NsxManagerSpec :=
  (asMap v).bind TryConvertToNsxManagerNodeSpec

/-- The append loop over the node list: convert each entry in order,
aborting on the first error. -/
def mapRes (f : α → Res β) : List α → Res (List β)
  | [] => .ok []
  | x :: xs => (f x).bind fun y => (mapRes f xs).bind fun ys => .ok (y :: ys)

/-- `models.NsxTSpec` (fields used by the converter; `Vip` and `VipFqdn`
are `*string` in the SDK, hence `Option String`). -/
structure NsxTSpec where
  vip : Option String
  vipFqdn : Option String
  nsxManagerAdminPassword : String
  licenseKey : String
  formFactor : String := ""
  nsxManagerAuditPassword : String := ""
  nsxManagerSpecs : List NsxManagerSpec := []
  deriving Repr, DecidableEq

/-- `TryConvertToNsxSpec` from `internal/network/nsx_subresource.go`:
nil-map check; required `vip`, `vip_fqdn`; the `object["nsx_manager"] == nil`
guard; required `nsx_manager_admin_password`, `license_key`; optional
`form_factor`, `nsx_manager_audit_password`; then the `nsx_manager_node`
list, rejected when empty and otherwise converted entry by entry. -/
def TryConvertToNsxSpec (object : Option AttrMap) : Res NsxTSpec :=
  match object with
  | none => .err "cannot convert to NsxTSpec, object is nil"
  | some m =>
    (requireString (get m "vip")
        "cannot convert to NsxTSpec, vip is required").bind fun vip =>
    (requireString (get m "vip_fqdn")
        "cannot convert to NsxTSpec, vip_fqdn is required").bind fun vipFqdn =>
    (if isNilValue (get m "nsx_manager") then
        Res.err "cannot convert to NsxTSpec, nsx_manager is required"
      else Res.ok ()).bind fun _ =>
    (requireString (get m "nsx_manager_admin_password")
        "cannot convert to NsxTSpec, nsx_manager_admin_password is required").bind
      fun adminPassword =>
    (requireString (get m "license_key")
        "cannot convert to NsxTSpec, license_key is required").bind fun licenseKey =>
    (goOptionalString m "form_factor").bind fun formFactor =>
    (goOptionalString m "nsx_manager_audit_password").bind fun auditPassword =>
    (asList (get m "nsx_manager_node")).bind fun nsxManagerList =>
    (if nsxManagerList.isEmpty then
        Res.err "cannot convert to NsxTSpec, at least one entry for nsx_manager is required"
      else Res.ok ()).bind fun _ =>
    (mapRes convertNsxManagerEntry nsxManagerList).bind fun nsxManagerSpecs =>
    .ok { vip := some vip, vipFqdn := some vipFqdn,
          nsxManagerAdminPassword := adminPassword, licenseKey := licenseKey,
          formFactor := formFactor, nsxManagerAuditPassword := auditPassword,
          nsxManagerSpecs := nsxManagerSpecs }

/-- `models.NsxTClusterReference` (fields used by `FlattenNsxClusterRef`;
plain Go strings). -/
structure NsxTClusterReference where
  id : String
  vip : String
  vipFqdn : String
  deriving Repr, DecidableEq

/-- `FlattenNsxClusterRef` from `internal/network/nsx_subresource.go`:
always returns a (pointer to a) map, empty for a nil reference and holding
`id`, `vip` and `vip_fqdn` otherwise. -/
def FlattenNsxClusterRef (nsxClusterRef : Option NsxTClusterReference) : AttrMap :=
  match nsxClusterRef with
  | none => []
  | some r => [("id", .str r.id), ("vip", .str r.vip), ("vip_fqdn", .str r.vipFqdn)]

/-- The type assertion `v.(float64)` (float payloads abstracted to
integers). -/
def asFloat : Value → Res Int
  | .float n => .ok n
  | _ => .panic "interface conversion: interface is not float64"

/-- The type assertion `v.(int)`. -/
def asInt : Value → Res Int
  | .int n => .ok n
  | _ => .panic "interface conversion: interface is not int"

/-- The type assertion `v.(bool)`. -/
def asBool : Value → Res Bool
  | .bool b => .ok b
  | _ => .panic "interface conversion: interface is not bool"

/-- The type assertion `v.(map[string]string)`: in Go this succeeds only
when the dynamic type is exactly `map[string]string`. -/
def asStrMap : Value → Res (List (String × String))
  | .strMap m => .ok m
  | _ => .panic "interface conversion: interface is not map[string]string"

/-- Modelled from the spec: `utils.ToStringPointer`
(`internal/resource_utils`, not among the sources).  Following the
converters' nil-check-then-assert pattern: nil becomes a nil pointer,
otherwise the value is asserted to string. -/
def ToStringPointer : Value → Res (Option String)
  | .nil => .ok none
  | v => (asString v).bind fun s => .ok (some s)

/-- Modelled from the spec: `utils.ToInt32Pointer`
(`internal/resource_utils`, not among the sources); same pattern for
`int` values. -/
def ToInt32Pointer : Value → Res (Option Int)
  | .nil => .ok none
  | v => (asInt v).bind fun n => .ok (some n)

/-- Modelled from the spec: `utils.ToBoolPointer`
(`internal/resource_utils`, not among the sources); same pattern for
`bool` values. -/
def ToBoolPointer : Value → Res (Option Bool)
  | .nil => .ok none
  | v => (asBool v).bind fun b => .ok (some b)

/-- `models.ResourcePoolSpec` (fields used by the converter; `int64` and
`int32` payloads as `Int`, pointer fields as `Option`). -/
structure ResourcePoolSpec where
  cpuLimit : Int
  cpuReservationExpandable : Bool
  cpuReservationMhz : Int
  cpuReservationPercentage : Option Int
  cpuSharesLevel : String
  cpuSharesValue : Int
  memoryLimit : Int
  memorySharesLevel : String
  memoryReservationPercentage : Option Int
  memoryReservationExpandable : Option Bool
  memoryReservationMb : Int
  memorySharesValue : Int
  name : Option String
  type : String
  deriving Repr, DecidableEq

/-- The body of the `getResourcePoolSpecsFromSchema` loop for one
`resource_pool` entry, with the assertions in source order. -/
def convertResourcePoolEntry (v : Value) : Res ResourcePoolSpec :=
  (asMap v).bind fun data =>
  (asFloat (get data "cpu_limit")).bind fun cpuLimit =>
  (asBool (get data "cpu_reservation_expandable")).bind fun cpuResExpandable =>
  (asFloat (get data "cpu_reservation_mhz")).bind fun cpuResMhz =>
  (ToInt32Pointer (get data "cpu_reservation_percentage")).bind fun cpuResPct =>
  (asString (get data "cpu_shares_level")).bind fun cpuSharesLevel =>
  (asInt (get data "cpu_shares_value")).bind fun cpuSharesValue =>
  (asFloat (get data "memory_limit")).bind fun memoryLimit =>
  (ToInt32Pointer (get data "memory_reservation_percentage")).bind fun memResPct =>
  (ToBoolPointer (get data "memory_reservation_expandable")).bind fun memResExpandable =>
  (asFloat (get data "memory_reservation_mb")).bind fun memResMb =>
  (asString (get data "memory_shares_level")).bind fun memSharesLevel =>
  (asInt (get data "memory_shares_value")).bind fun memSharesValue =>
  (ToStringPointer (get data "name")).bind fun name =>
  (asString (get data "type")).bind fun resourcePoolType =>
  .ok { cpuLimit := cpuLimit, cpuReservationExpandable := cpuResExpandable,
        cpuReservationMhz := cpuResMhz, cpuReservationPercentage := cpuResPct,
        cpuSharesLevel := cpuSharesLevel, cpuSharesValue := cpuSharesValue,
        memoryLimit := memoryLimit, memorySharesLevel := memSharesLevel,
        memoryReservationPercentage := memResPct,
        memoryReservationExpandable := memResExpandable,
        memoryReservationMb := memResMb, memorySharesValue := memSharesValue,
        name := name, type := resourcePoolType }

/-- `getResourcePoolSpecsFromSchema` from `internal/sddc`:
convert every entry of the raw list in order. -/
def getResourcePoolSpecsFromSchema (rawData : List Value) : Res (List ResourcePoolSpec) :=
  mapRes convertResourcePoolEntry rawData

/-- `models.SDDCClusterSpec` (fields used by the converter; a Go nil
`VMFolders` map is `none`, a nil `ResourcePoolSpecs` slice is `[]`). -/
structure SDDCClusterSpec where
  clusterEvcMode : String
  clusterName : Option String
  hostFailuresToTolerate : Option Int
  vmFolders : Option (List (String × String)) := none
  resourcePoolSpecs : List ResourcePoolSpec := []
  deriving Repr, DecidableEq

/-- `GetSddcClusterSpecFromSchema` from `internal/sddc`: nil for an empty
raw list, otherwise the spec is built from the first element only;
`vm_folder` is only asserted when non-empty, and `ResourcePoolSpecs` is
only assigned when the converted list is non-empty. -/
def GetSddcClusterSpecFromSchema (rawData : List Value) : Res (Option SDDCClusterSpec) :=
  match rawData with
  | [] => .ok none
  | first :: _ =>
    (asMap first).bind fun data =>
    (ToStringPointer (get data "cluster_name")).bind fun clusterName =>
    (asString (get data "cluster_evc_mode")).bind fun clusterEvcMode =>
    (ToInt32Pointer (get data "host_failures_to_tolerate")).bind fun hostFailures =>
    (if IsEmpty (get data "vm_folder") then Res.ok none
      else (asStrMap (get data "vm_folder")).bind fun vmf =>
        Res.ok (some vmf)).bind fun vmFolder =>
    (asList (get data "resource_pool")).bind fun rpRaw =>
    (getResourcePoolSpecsFromSchema rpRaw).bind fun resourcePoolSpecs =>
    .ok (some { clusterEvcMode := clusterEvcMode, clusterName := clusterName,
                hostFailuresToTolerate := hostFailures, vmFolders := vmFolder,
                resourcePoolSpecs :=
                  if resourcePoolSpecs.length > 0 then resourcePoolSpecs else [] })

/-- `schema.Type` constants of the Terraform plugin SDK used here. -/
inductive SchemaType where
  | string | int | float | bool | list | map
  deriving Repr, DecidableEq

/-- The validator functions attached to schema attributes, by name. -/
inductive Validator where
  | noValidation
  | noZeroValues
  | validateIPv4Address
  | validatePassword
  | intBetween (lo hi : Int)
  | stringInSlice (allowed : List String) (ignoreCase : Bool)
  | validateParsingFloatToInt
  deriving Repr, DecidableEq

/-- A `*schema.Schema` / `*schema.Resource` attribute-definition tree:
an attribute carries its type, required/optional/computed/sensitive flags,
description, validator, default, max-items bound and element tree; a
resource is a field map. -/
inductive STree where
  | attr (ty : SchemaType) (required opt computed sensitive : Bool)
      (description : String) (validate : Validator)
      (defaultVal : Option Value) (maxItems : Option Nat) (elem : Option STree)
  | resource (fields : List (String × STree))

/-- A required string attribute. -/
def reqStr (desc : String) (v : Validator) : STree :=
  .attr .string true false false false desc v none none none

/-- An optional string attribute. -/
def optStr (desc : String) (v : Validator) : STree :=
  .attr .string false true false false desc v none none none

/-- A required sensitive string attribute. -/
def reqStrSensitive (desc : String) (v : Validator) : STree :=
  .attr .string true false false true desc v none none none

/-- An optional sensitive string attribute. -/
def optStrSensitive (desc : String) (v : Validator) : STree :=
  .attr .string false true false true desc v none none none

/-- A computed string attribute. -/
def computedStr (desc : String) : STree :=
  .attr .string false false true false desc .noValidation none none none

/-- The names of the required fields of a resource tree, in source order. -/
def requiredFieldNames : STree → List String
  | .resource fields =>
    fields.filterMap fun p =>
      match p.2 with
      | .attr _ req _ _ _ _ _ _ _ _ => if req then some p.1 else none
      | .resource _ => none
  | .attr _ _ _ _ _ _ _ _ _ _ => []

/-- `VMNicSchema` from `internal/network/vmnic_subresource.go`. -/
def VMNicSchema (_ : Unit) : STree :=
  .resource
    [("id", reqStr "ESXI host vmnic ID to be associated with a VDS, once added to cluster"
        .noZeroValues),
     ("uplink", optStr "Uplink to be associated with vmnic" .noZeroValues),
     ("vds_name", optStr "Name of the VDS to associate with the ESXi host" .noZeroValues)]

/-- Modelled from the spec: `NsxManagerNodeSchema`
(`internal/network/nsx_manager_node_subresource.go`, not among the
sources).  Per the spec every schema builder is a static attribute tree;
the field names are those configured by the acceptance-test fixture's
`nsx_manager_node` blocks, as required strings. -/
def NsxManagerNodeSchema (_ : Unit) : STree :=
  .resource
    [("name", reqStr "Name of the NSX manager virtual machine" .noZeroValues),
     ("ip_address", reqStr "IPv4 address of the virtual machine" .noZeroValues),
     ("dns_name", reqStr "DNS name (FQDN) of the virtual machine" .noZeroValues),
     ("subnet_mask", reqStr "Subnet mask" .noZeroValues),
     ("gateway", reqStr "IPv4 gateway the virtual machine can use" .noZeroValues)]

/-- `NsxSchema` from `internal/network/nsx_subresource.go`. -/
def NsxSchema (_ : Unit) : STree :=
  .resource
    [("vip", reqStr "Virtual IP address which would act as proxy/alias for NSX Managers"
        .validateIPv4Address),
     ("vip_fqdn", reqStr "FQDN for VIP so that common SSL certificates can be installed across all managers"
        .noZeroValues),
     ("license_key", reqStr "NSX license value" .noZeroValues),
     ("form_factor", optStr "NSX manager form factor" .noZeroValues),
     ("nsx_manager_admin_password", reqStrSensitive "NSX manager admin password (basic auth and SSH)"
        .validatePassword),
     ("nsx_manager_audit_password", optStrSensitive "NSX manager Audit password"
        .validatePassword),
     ("nsx_manager_node", .attr .list true false false false
        "Specification details of the NSX Manager virtual machines. 3 of these are required for the first workload domain"
        .noValidation none none (some (NsxManagerNodeSchema ())))]

/-- `NsxClusterRefSchema` from `internal/network/nsx_subresource.go`. -/
def NsxClusterRefSchema (_ : Unit) : STree :=
  .resource
    [("id", computedStr "ID of the NSX cluster"),
     ("vip", computedStr "VIP (Virtual IP Address) of the NSX cluster"),
     ("vip_fqdn", computedStr "FQDN for VIP of the NSX cluster")]

/-- `sharesLevelValues` from `internal/sddc`. -/
def sharesLevelValues : List String := ["custom", "high", "low", "normal"]

/-- `resourcePoolTypeValues` from `internal/sddc`. -/
def resourcePoolTypeValues : List String := ["management", "compute", "network"]

/-- `getResourcePoolSchema` from `internal/sddc`. -/
def getResourcePoolSchema (_ : Unit) : STree :=
  .attr .list false true false false "" .noValidation none none (some (.resource
    [("name", reqStr "Resource Pool name" .noValidation),
     ("type", .attr .string false true false false
        "Type of resource pool, possible values: \"management\", \"compute\", \"network\""
        (.stringInSlice resourcePoolTypeValues false) none none none),
     ("cpu_limit", .attr .float false true false false
        "CPU limit, default -1 (unlimited)" .validateParsingFloatToInt
        (some (.int (-1))) none none),
     ("cpu_reservation_expandable", .attr .bool false true false false
        "Is CPU reservation expandable, default true" .noValidation
        (some (.bool true)) none none),
     ("cpu_reservation_mhz", .attr .float false true false false
        "CPU reservation in Mhz" .validateParsingFloatToInt none none none),
     ("cpu_reservation_percentage", .attr .int false true false false
        "CPU reservation percentage, from 0 to 100, default 0" (.intBetween 0 100)
        (some (.int 0)) none none),
     ("cpu_shares_level", .attr .string false true false false
        "CPU shares level, default 'normal', possible values: \"custom\", \"high\", \"low\", \"normal\""
        (.stringInSlice sharesLevelValues false) (some (.str "normal")) none none),
     ("cpu_shares_value", .attr .int false true false false
        "CPU shares value, only required when shares level is 'normal'" .noValidation
        (some (.int 0)) none none),
     ("memory_limit", .attr .float false true false false
        "Memory limit, default -1 (unlimited)" .validateParsingFloatToInt
        (some (.int (-1))) none none),
     ("memory_reservation_expandable", .attr .bool false true false false
        "Is Memory reservation expandable, default true" .noValidation
        (some (.bool true)) none none),
     ("memory_reservation_mb", .attr .float false true false false
        "Memory reservation in MB" .validateParsingFloatToInt none none none),
     ("memory_reservation_percentage", .attr .int false true false false
        "Memory reservation percentage, from 0 to 100, default 0" (.intBetween 0 100)
        (some (.int 0)) none none),
     ("memory_shares_level", .attr .string false true false false
        "Memory shares level, default 'normal', possible values: \"custom\", \"high\", \"low\", \"normal\""
        (.stringInSlice sharesLevelValues false) (some (.str "normal")) none none),
     ("memory_shares_value", .attr .int false true false false
        "Memory shares value, only required when shares level is 'normal'" .noValidation
        (some (.int 0)) none none)]))

/-- `GetSddcClusterSchema` from `internal/sddc`. -/
def GetSddcClusterSchema (_ : Unit) : STree :=
  .attr .list true false false false "" .noValidation none (some 1) (some (.resource
    [("cluster_name", reqStr "vCenter Cluster Name" .noValidation),
     ("cluster_evc_mode", optStr "vCenter cluster EVC mode" .noValidation),
     ("host_failures_to_tolerate", .attr .int false true false false
        "Host failures to tolerate. In between 0 and 3" (.intBetween 0 3)
        none none none),
     ("resource_pool", getResourcePoolSchema ()),
     ("vm_folder", .attr .map false true false false
        "Virtual Machine folders map. One among: MANAGEMENT, NETWORKING" .noValidation
        none none (some (.attr .string false false false false "" .noValidation
          none none none)))]))

/-- The key is either absent from the map or bound to an empty value. -/
def absentOrEmpty (m : AttrMap) (k : String) : Bool :=
  match lookup m k with
  | none => true
  | some v => IsEmpty v

theorem Res.guard_eq_ok {c : Bool} {msg : String} {a : Unit} :
    ((if c then Res.err msg else Res.ok ()) = Res.ok a) ↔ c = false := by
  cases c <;> simp

theorem Res.bind_ite {c : Prop} [Decidable c] (x y : Res α) (f : α → Res β) :
    (if c then x else y).bind f = if c then x.bind f else y.bind f := by
  split <;> rfl

theorem requireString_eq_ok {v : Value} {msg s : String} :
    requireString v msg = .ok s ↔ v = .str s ∧ s ≠ "" := by
  cases v <;> simp only [requireString, asString, Res.bind_ok, Res.bind_panic] <;>
    try simp
  rename_i a
  by_cases h : a = "" <;> simp [h] <;> rintro rfl <;> simp [h] at *

theorem asList_eq_ok {v : Value} {xs : List Value} :
    asList v = .ok xs ↔ v = .list xs := by
  cases v <;> simp [asList]

theorem goOptionalString_of_absentOrEmpty {m : AttrMap} {k : String}
    (h : absentOrEmpty m k = true) : goOptionalString m k = .ok "" := by
  unfold absentOrEmpty at h
  unfold goOptionalString
  cases hl : lookup m k with
  | none => rfl
  | some v =>
    rw [hl] at h
    have h' : IsEmpty v = true := h
    simp [h']

theorem lookup_of_get_str {m : AttrMap} {k s : String}
    (h : get m k = .str s) : lookup m k = some (.str s) := by
  unfold get at h
  cases hl : lookup m k with
  | none => rw [hl] at h; simp [Option.getD] at h
  | some v => rw [hl] at h; simp [Option.getD] at h; rw [h]

theorem mapRes_ok_length {f : α → Res β} {xs : List α} {ys : List β}
    (h : mapRes f xs = .ok ys) : ys.length = xs.length := by
  induction xs generalizing ys with
  | nil => simp only [mapRes, Res.ok.injEq] at h; subst h; rfl
  | cons x xs ih =>
    simp only [mapRes, Res.bind_eq_ok, Res.ok.injEq] at h
    obtain ⟨y, _, ys', hys', rfl⟩ := h
    simp [ih hys']

/-- Success inversion for `TryConvertToVmNic`: a returned `VMNic` is built
exactly from the asserted `id` and the two optional lookups. -/
theorem TryConvertToVmNic_ok_inv {m : AttrMap} {nic : VMNic}
    (h : TryConvertToVmNic (some m) = .ok nic) :
    ∃ id uplink vdsName,
      get m "id" = .str id ∧ id ≠ "" ∧
      goOptionalString m "uplink" = .ok uplink ∧
      goOptionalString m "vds_name" = .ok vdsName ∧
      nic = ⟨id, uplink, vdsName⟩ := by
  simp only [TryConvertToVmNic, Res.bind_eq_ok, requireString_eq_ok,
    Res.ok.injEq] at h
  obtain ⟨id, ⟨hid, hne⟩, up, hup, vds, hvds, hnic⟩ := h
  exact ⟨id, up, vds, hid, hne, hup, hvds, hnic.symm⟩

/-- Success inversion for `TryConvertToNsxSpec`: a returned `NsxTSpec` is
built exactly from the required assertions, the optional lookups and the
converted node list. -/
theorem TryConvertToNsxSpec_ok_inv {m : AttrMap} {spec : NsxTSpec}
    (h : TryConvertToNsxSpec (some m) = .ok spec) :
    ∃ vip fqdn admin lic ff audit nodes specs,
      get m "vip" = .str vip ∧ vip ≠ "" ∧
      get m "vip_fqdn" = .str fqdn ∧ fqdn ≠ "" ∧
      isNilValue (get m "nsx_manager") = false ∧
      get m "nsx_manager_admin_password" = .str admin ∧ admin ≠ "" ∧
      get m "license_key" = .str lic ∧ lic ≠ "" ∧
      goOptionalString m "form_factor" = .ok ff ∧
      goOptionalString m "nsx_manager_audit_password" = .ok audit ∧
      get m "nsx_manager_node" = .list nodes ∧ nodes.isEmpty = false ∧
      mapRes convertNsxManagerEntry nodes = .ok specs ∧
      spec = ⟨some vip, some fqdn, admin, lic, ff, audit, specs⟩ := by
  simp only [TryConvertToNsxSpec, Res.bind_eq_ok, requireString_eq_ok,
    Res.guard_eq_ok, asList_eq_ok, Res.ok.injEq] at h
  obtain ⟨vip, ⟨hvip, hvipne⟩, fqdn, ⟨hfqdn, hfqdnne⟩, u1, hguard,
    admin, ⟨hadmin, hadminne⟩, lic, ⟨hlic, hlicne⟩, ff, hff, audit, haudit,
    nodes, hnodes, u2, hempty, specs, hspecs, hspec⟩ := h
  exact ⟨vip, fqdn, admin, lic, ff, audit, nodes, specs, hvip, hvipne,
    hfqdn, hfqdnne, hguard, hadmin, hadminne, hlic, hlicne, hff, haudit,
    hnodes, hempty, hspecs, hspec.symm⟩

/-- A concrete `nsx_manager_node` entry with the fields of the
acceptance-test fixture. -/
def nsxNode (name ip dns mask gw : String) : Value :=
  .map [("name", .str name), ("ip_address", .str ip), ("dns_name", .str dns),
        ("subnet_mask", .str mask), ("gateway", .str gw)]

/-- An attribute map supplying a non-empty value for every field of
`NsxSchema` (required and optional), with three valid manager nodes, and
no key outside the schema. -/
def nsxFullMap : AttrMap :=
  [("vip", .str "10.0.0.66"),
   ("vip_fqdn", .str "sfo-w01-nsx01.sfo.rainpole.io"),
   ("license_key", .str "NSX-LICENSE-KEY"),
   ("form_factor", .str "small"),
   ("nsx_manager_admin_password", .str "Nqkva_parola1"),
   ("nsx_manager_audit_password", .str "Audit_parola1"),
   ("nsx_manager_node", .list
     [nsxNode "sfo-w01-nsx01a" "10.0.0.62" "a.rainpole.io" "255.255.255.0" "10.0.0.250",
      nsxNode "sfo-w01-nsx01b" "10.0.0.63" "b.rainpole.io" "255.255.255.0" "10.0.0.250",
      nsxNode "sfo-w01-nsx01c" "10.0.0.64" "c.rainpole.io" "255.255.255.0" "10.0.0.250"])]

end Vcf

example : Vcf.TryConvertToVmNic (some [("id", .str "vmnic0")]) =
    .ok { id := "vmnic0" } := by rfl

example : Vcf.TryConvertToVmNic (some []) =
    .panic "interface conversion: interface is not string" := by rfl

example :
    Vcf.TryConvertToNsxSpec (some
      [("vip", .str "10.0.0.66"),
       ("vip_fqdn", .str "nsx.example.org"),
       ("nsx_manager", .str "present"),
       ("nsx_manager_admin_password", .str "Passw0rd!"),
       ("license_key", .str "AAAAA"),
       ("nsx_manager_node", .list [.map [("name", .str "nsx-a")]])]) =
    .ok { vip := some "10.0.0.66", vipFqdn := some "nsx.example.org",
          nsxManagerAdminPassword := "Passw0rd!", licenseKey := "AAAAA",
          nsxManagerSpecs := [{ name := "nsx-a" }] } := by rfl

example :
    Vcf.TryConvertToNsxSpec (some
      [("vip", .str "10.0.0.66"),
       ("vip_fqdn", .str "nsx.example.org"),
       ("nsx_manager_admin_password", .str "Passw0rd!"),
       ("license_key", .str "AAAAA"),
       ("nsx_manager_node", .list [.map [("name", .str "nsx-a")]])]) =
    .err "cannot convert to NsxTSpec, nsx_manager is required" := by rfl

namespace Vcf

/-- C1: the claim reads: for every attribute map that supplies a non-empty
value for each field declared Required in `NsxSchema` (vip, vip_fqdn,
license_key, nsx_manager_admin_password, and a non-empty nsx_manager_node
list of valid node maps), `TryConvertToNsxSpec` returns a non-nil
`NsxTSpec` and a nil error.  The code violates it: `nsxFullMap` supplies a
non-empty value for every required (indeed every) schema field and three
valid node maps, yet the converter fails, because it guards on the key
`nsx_manager`, which is not part of the schema, instead of
`nsx_manager_node`. -/
theorem nsx_required_schema_fields_do_not_suffice :
    ((requiredFieldNames (NsxSchema ())).all
      fun k => !(IsEmpty (get nsxFullMap k))) = true ∧
    (∃ nodes, get nsxFullMap "nsx_manager_node" = .list nodes ∧ nodes ≠ [] ∧
      ∃ specs, mapRes convertNsxManagerEntry nodes = .ok specs) ∧
    TryConvertToNsxSpec (some nsxFullMap) =
      .err "cannot convert to NsxTSpec, nsx_manager is required" := by
  refine ⟨rfl, ⟨_, rfl, by simp, _, rfl⟩, rfl⟩

/-- C7: the schema builders `VMNicSchema`, `NsxSchema`,
`NsxClusterRefSchema` and `GetSddcClusterSchema` are deterministic pure
data constructors: any two calls return structurally equal
attribute-definition trees. -/
theorem schema_builders_deterministic :
    (∀ u v : Unit, VMNicSchema u = VMNicSchema v) ∧
    (∀ u v : Unit, NsxSchema u = NsxSchema v) ∧
    (∀ u v : Unit, NsxClusterRefSchema u = NsxClusterRefSchema v) ∧
    (∀ u v : Unit, GetSddcClusterSchema u = GetSddcClusterSchema v) :=
  ⟨fun _ _ => rfl, fun _ _ => rfl, fun _ _ => rfl, fun _ _ => rfl⟩

/-- C8: `FlattenNsxClusterRef` always returns a (pointer to a) map: empty
for a nil reference, and holding exactly the keys `id`, `vip` and
`vip_fqdn` with the struct's field values otherwise. -/
theorem flattenNsxClusterRef_spec :
    FlattenNsxClusterRef none = [] ∧
    ∀ r : NsxTClusterReference, FlattenNsxClusterRef (some r) =
      [("id", .str r.id), ("vip", .str r.vip), ("vip_fqdn", .str r.vipFqdn)] :=
  ⟨rfl, fun _ => rfl⟩

/-- C9: `GetSddcClusterSpecFromSchema` returns nil for an empty input list
and builds the cluster spec from the first element only, ignoring all
subsequent elements. -/
theorem getSddcClusterSpecFromSchema_first_element_only :
    GetSddcClusterSpecFromSchema [] = .ok none ∧
    ∀ (x : Value) (rest : List Value),
      GetSddcClusterSpecFromSchema (x :: rest) =
        GetSddcClusterSpecFromSchema [x] :=
  ⟨rfl, fun _ _ => rfl⟩

/-- C10: on a nil input map both converters return a nil result together
with a non-nil error (the nil check precedes every field access). -/
theorem converters_reject_nil_map :
    TryConvertToVmNic none = .err "cannot convert to VMNic, object is nil" ∧
    TryConvertToNsxSpec none = .err "cannot convert to NsxTSpec, object is nil" :=
  ⟨rfl, rfl⟩

end Vcf

namespace Vcf

/-- A schema-shaped map on which `TryConvertToVmNic` succeeds with both
optional fields absent. -/
def wVmNicMap : AttrMap := [("id", .str "vmnic0")]

/-- A map on which `TryConvertToNsxSpec` succeeds (it must carry the extra
`nsx_manager` key demanded by the converter's guard) with both optional
fields absent. -/
def wNsxMap : AttrMap :=
  [("vip", .str "10.0.0.66"),
   ("vip_fqdn", .str "sfo-w01-nsx01.sfo.rainpole.io"),
   ("nsx_manager", .str "present"),
   ("nsx_manager_admin_password", .str "Nqkva_parola1"),
   ("license_key", .str "NSX-LICENSE-KEY"),
   ("nsx_manager_node", .list [nsxNode "sfo-w01-nsx01a" "10.0.0.62"
      "a.rainpole.io" "255.255.255.0" "10.0.0.250"])]

/-- The spec `TryConvertToNsxSpec` returns on `wNsxMap`. -/
def wNsxSpec : NsxTSpec :=
  { vip := some "10.0.0.66", vipFqdn := some "sfo-w01-nsx01.sfo.rainpole.io",
    nsxManagerAdminPassword := "Nqkva_parola1", licenseKey := "NSX-LICENSE-KEY",
    nsxManagerSpecs := [NsxManagerSpec.mk "sfo-w01-nsx01a" "10.0.0.62"
      "a.rainpole.io" "255.255.255.0" "10.0.0.250"] }

/-- C4: for every converter and every optional field (`uplink`,
`vds_name`, `form_factor`, `nsx_manager_audit_password`), an input map in
which that field is absent or bound to an empty value yields, when the
conversion succeeds, a result struct whose corresponding field is the zero
value `""`. -/
theorem optional_fields_default_to_zero_value :
    (∀ (m : AttrMap) (nic : VMNic), TryConvertToVmNic (some m) = .ok nic →
      (absentOrEmpty m "uplink" = true → nic.uplink = "") ∧
      (absentOrEmpty m "vds_name" = true → nic.vdsName = "")) ∧
    (∀ (m : AttrMap) (spec : NsxTSpec), TryConvertToNsxSpec (some m) = .ok spec →
      (absentOrEmpty m "form_factor" = true → spec.formFactor = "") ∧
      (absentOrEmpty m "nsx_manager_audit_password" = true →
        spec.nsxManagerAuditPassword = "")) := by
  constructor
  · intro m nic h
    obtain ⟨id, up, vds, _, _, hup, hvds, rfl⟩ := TryConvertToVmNic_ok_inv h
    constructor
    · intro ha
      simpa using hup.symm.trans (goOptionalString_of_absentOrEmpty ha)
    · intro ha
      simpa using hvds.symm.trans (goOptionalString_of_absentOrEmpty ha)
  · intro m spec h
    obtain ⟨vip, fqdn, admin, lic, ff, audit, nodes, specs, _, _, _, _, _, _,
      _, _, _, hff, haudit, _, _, _, rfl⟩ := TryConvertToNsxSpec_ok_inv h
    constructor
    · intro ha
      simpa using hff.symm.trans (goOptionalString_of_absentOrEmpty ha)
    · intro ha
      simpa using haudit.symm.trans (goOptionalString_of_absentOrEmpty ha)

/-- C4 witness: on concrete maps lacking the optional fields, both
conversions succeed and the optional struct fields are zero. -/
theorem optional_fields_default_to_zero_value_witness :
    ({ id := "vmnic0" } : VMNic).uplink = "" ∧ wNsxSpec.formFactor = "" ∧
      wNsxSpec.nsxManagerAuditPassword = "" :=
  ⟨(optional_fields_default_to_zero_value.1 wVmNicMap { id := "vmnic0" } rfl).1 rfl,
   (optional_fields_default_to_zero_value.2 wNsxMap wNsxSpec rfl).1 rfl,
   (optional_fields_default_to_zero_value.2 wNsxMap wNsxSpec rfl).2 rfl⟩

/-- C5: whenever `TryConvertToNsxSpec` succeeds, the returned spec's
`Vip`, `VipFqdn`, `NsxManagerAdminPassword` and `LicenseKey` equal the
corresponding entries of the input map, and `NsxManagerSpecs` is the
in-order conversion of the `nsx_manager_node` list — one spec per
element. -/
theorem nsx_spec_success_reflects_input :
    ∀ (m : AttrMap) (spec : NsxTSpec), TryConvertToNsxSpec (some m) = .ok spec →
      (∃ vip, get m "vip" = .str vip ∧ spec.vip = some vip) ∧
      (∃ fqdn, get m "vip_fqdn" = .str fqdn ∧ spec.vipFqdn = some fqdn) ∧
      (∃ pw, get m "nsx_manager_admin_password" = .str pw ∧
        spec.nsxManagerAdminPassword = pw) ∧
      (∃ lic, get m "license_key" = .str lic ∧ spec.licenseKey = lic) ∧
      (∃ nodes, get m "nsx_manager_node" = .list nodes ∧
        mapRes convertNsxManagerEntry nodes = .ok spec.nsxManagerSpecs ∧
        spec.nsxManagerSpecs.length = nodes.length) := by
  intro m spec h
  obtain ⟨vip, fqdn, admin, lic, ff, audit, nodes, specs, hvip, _, hfqdn, _, _,
    hadmin, _, hlic, _, _, _, hnodes, _, hspecs, rfl⟩ :=
    TryConvertToNsxSpec_ok_inv h
  exact ⟨⟨vip, hvip, rfl⟩, ⟨fqdn, hfqdn, rfl⟩, ⟨admin, hadmin, rfl⟩,
    ⟨lic, hlic, rfl⟩, nodes, hnodes, hspecs, mapRes_ok_length hspecs⟩

/-- C5 witness: the success-field correspondence at the concrete map
`wNsxMap` and its conversion result `wNsxSpec`. -/
theorem nsx_spec_success_reflects_input_witness :
    (∃ vip, get wNsxMap "vip" = .str vip ∧ wNsxSpec.vip = some vip) ∧
    (∃ fqdn, get wNsxMap "vip_fqdn" = .str fqdn ∧ wNsxSpec.vipFqdn = some fqdn) ∧
    (∃ pw, get wNsxMap "nsx_manager_admin_password" = .str pw ∧
      wNsxSpec.nsxManagerAdminPassword = pw) ∧
    (∃ lic, get wNsxMap "license_key" = .str lic ∧ wNsxSpec.licenseKey = lic) ∧
    (∃ nodes, get wNsxMap "nsx_manager_node" = .list nodes ∧
      mapRes convertNsxManagerEntry nodes = .ok wNsxSpec.nsxManagerSpecs ∧
      wNsxSpec.nsxManagerSpecs.length = nodes.length) :=
  nsx_spec_success_reflects_input wNsxMap wNsxSpec rfl

end Vcf

namespace Vcf

/-- An entry list with the key present, or nothing. -/
def optEntry (k : String) : Option Value → AttrMap
  | none => []
  | some v => [(k, v)]

/-- A parametrized NSX attribute map: the four required string fields, the
`nsx_manager_node` value, and optionally `form_factor`,
`nsx_manager_audit_password` and the extra `nsx_manager` key the
converter's guard demands. -/
def mkNsxAttrMap (vip fqdn admin lic : String) (ff audit mgr : Option Value)
    (nodes : Value) : AttrMap :=
  [("vip", .str vip), ("vip_fqdn", .str fqdn),
   ("nsx_manager_admin_password", .str admin), ("license_key", .str lic),
   ("nsx_manager_node", nodes)]
  ++ optEntry "form_factor" ff
  ++ optEntry "nsx_manager_audit_password" audit
  ++ optEntry "nsx_manager" mgr

/-- C2 counterexample: on a non-nil map in which the required field `id`
is absent, `TryConvertToVmNic` panics on the type assertion instead of
returning an error — there is no per-field presence check. -/
theorem vmnic_absent_required_field_panics :
    TryConvertToVmNic (some []) =
      .panic "interface conversion: interface is not string" ∧
    ∀ e, TryConvertToVmNic (some []) ≠ .err e := by
  refine ⟨rfl, fun e h => ?_⟩
  rw [show TryConvertToVmNic (some []) =
    .panic "interface conversion: interface is not string" from rfl] at h
  exact Res.noConfusion h

/-- C2 amended: for each required string field of either converter, a map
in which that field is present but empty (and the earlier-checked fields
are valid; for the fields checked after the guard, a non-nil `nsx_manager`
entry is present) yields an error whose message contains the field name.
An absent required field instead panics on the type assertion. -/
theorem required_empty_field_error_names_field :
    ∀ (vip fqdn admin lic : String) (nodes : Value),
      (TryConvertToNsxSpec (some (mkNsxAttrMap "" fqdn admin lic none none
          (some (.str "present")) nodes)) =
        .err "cannot convert to NsxTSpec, vip is required" ∧
        "vip".toList <:+:
          "cannot convert to NsxTSpec, vip is required".toList) ∧
      (vip ≠ "" →
        TryConvertToNsxSpec (some (mkNsxAttrMap vip "" admin lic none none
            (some (.str "present")) nodes)) =
          .err "cannot convert to NsxTSpec, vip_fqdn is required" ∧
        "vip_fqdn".toList <:+:
          "cannot convert to NsxTSpec, vip_fqdn is required".toList) ∧
      (vip ≠ "" → fqdn ≠ "" →
        TryConvertToNsxSpec (some (mkNsxAttrMap vip fqdn "" lic none none
            (some (.str "present")) nodes)) =
          .err "cannot convert to NsxTSpec, nsx_manager_admin_password is required" ∧
        "nsx_manager_admin_password".toList <:+:
          "cannot convert to NsxTSpec, nsx_manager_admin_password is required".toList) ∧
      (vip ≠ "" → fqdn ≠ "" → admin ≠ "" →
        TryConvertToNsxSpec (some (mkNsxAttrMap vip fqdn admin "" none none
            (some (.str "present")) nodes)) =
          .err "cannot convert to NsxTSpec, license_key is required" ∧
        "license_key".toList <:+:
          "cannot convert to NsxTSpec, license_key is required".toList) ∧
      (TryConvertToVmNic (some [("id", .str "")]) =
        .err "cannot convert to VMNic, id is required" ∧
        "id".toList <:+:
          "cannot convert to VMNic, id is required".toList) := by
  intro vip fqdn admin lic nodes
  refine ⟨⟨rfl, by decide⟩, fun h1 => ⟨?_, by decide⟩,
    fun h1 h2 => ⟨?_, by decide⟩, fun h1 h2 h3 => ⟨?_, by decide⟩,
    ⟨rfl, by decide⟩⟩
  · simp [mkNsxAttrMap, optEntry, TryConvertToNsxSpec, get, lookup,
      requireString, asString, h1]
  · simp [mkNsxAttrMap, optEntry, TryConvertToNsxSpec, get, lookup,
      requireString, asString, isNilValue, h1, h2]
  · simp [mkNsxAttrMap, optEntry, TryConvertToNsxSpec, get, lookup,
      requireString, asString, isNilValue, h1, h2, h3]

/-- C2 witness: the empty-`license_key` case at concrete values. -/
theorem required_empty_field_error_names_field_witness :
    TryConvertToNsxSpec (some (mkNsxAttrMap "10.0.0.66" "nsx.rainpole.io"
        "Nqkva_parola1" "" none none (some (.str "present")) (.list []))) =
      .err "cannot convert to NsxTSpec, license_key is required" ∧
    "license_key".toList <:+:
      "cannot convert to NsxTSpec, license_key is required".toList :=
  (required_empty_field_error_names_field "10.0.0.66" "nsx.rainpole.io"
    "Nqkva_parola1" "" (.list [])).2.2.2.1
    (by decide) (by decide) (by decide)

end Vcf

namespace Vcf

/-- `nsxFullMap` extended with the non-schema `nsx_manager` key, so that
the schema-complete map actually converts. -/
def nsxFullMapWithMgr : AttrMap := ("nsx_manager", .str "present") :: nsxFullMap

/-- C3 counterexample: `nsxFullMapWithMgr` has every `NsxSchema` field
present and non-empty and converts successfully, yet no output of
`FlattenNsxClusterRef` equals it — the flattened map never carries a
`license_key` entry. -/
theorem convert_then_flatten_does_not_reproduce_map :
    (∃ spec, TryConvertToNsxSpec (some nsxFullMapWithMgr) = .ok spec) ∧
    ∀ r : Option NsxTClusterReference, FlattenNsxClusterRef r ≠ nsxFullMapWithMgr := by
  refine ⟨⟨_, rfl⟩, fun r h => ?_⟩
  have h1 : lookup (FlattenNsxClusterRef r) "license_key" = none := by
    cases r <;> rfl
  rw [h] at h1
  rw [show lookup nsxFullMapWithMgr "license_key" =
    some (.str "NSX-LICENSE-KEY") from rfl] at h1
  exact Option.noConfusion h1

/-- C3 amended: convert-then-flatten reproduces only the cluster-reference
part of the input: flattening a reference carrying the converted spec's
`Vip` and `VipFqdn` yields a map whose `vip` and `vip_fqdn` entries equal
those of the original map; the remaining entries are not reproduced and an
`id` key is added. -/
theorem convert_then_flatten_preserves_vip_entries :
    ∀ (m : AttrMap) (spec : NsxTSpec) (i : String),
      TryConvertToNsxSpec (some m) = .ok spec →
      lookup (FlattenNsxClusterRef (some
          ⟨i, spec.vip.getD "", spec.vipFqdn.getD ""⟩)) "vip" = lookup m "vip" ∧
      lookup (FlattenNsxClusterRef (some
          ⟨i, spec.vip.getD "", spec.vipFqdn.getD ""⟩)) "vip_fqdn" =
        lookup m "vip_fqdn" := by
  intro m spec i h
  obtain ⟨vip, fqdn, admin, lic, ff, audit, nodes, specs, hvip, _, hfqdn, _, _,
    _, _, _, _, _, _, _, _, _, rfl⟩ := TryConvertToNsxSpec_ok_inv h
  rw [lookup_of_get_str hvip, lookup_of_get_str hfqdn]
  constructor <;> rfl

/-- C3 amended witness: the preserved `vip` and `vip_fqdn` entries at the
concrete map `wNsxMap`. -/
theorem convert_then_flatten_preserves_vip_entries_witness :
    lookup (FlattenNsxClusterRef (some
        ⟨"nsx-cluster-1", wNsxSpec.vip.getD "", wNsxSpec.vipFqdn.getD ""⟩)) "vip" =
      lookup wNsxMap "vip" ∧
    lookup (FlattenNsxClusterRef (some
        ⟨"nsx-cluster-1", wNsxSpec.vip.getD "", wNsxSpec.vipFqdn.getD ""⟩)) "vip_fqdn" =
      lookup wNsxMap "vip_fqdn" :=
  convert_then_flatten_preserves_vip_entries wNsxMap wNsxSpec "nsx-cluster-1" rfl

/-- C6 counterexample: a map whose `nsx_manager_node` entry is the empty
list but whose `vip` is empty fails with the `vip` error, not with the
"at least one entry for nsx_manager" error the claim promises for every
such map. -/
theorem empty_node_list_can_fail_earlier :
    TryConvertToNsxSpec (some [("vip", .str ""), ("nsx_manager_node", .list [])]) =
      .err "cannot convert to NsxTSpec, vip is required" ∧
    "cannot convert to NsxTSpec, vip is required" ≠
      "cannot convert to NsxTSpec, at least one entry for nsx_manager is required" :=
  ⟨rfl, by decide⟩

/-- C6 amended: when the four required string fields are present and
non-empty, the `nsx_manager` key holds a non-nil value and the optional
fields are absent or strings, an empty `nsx_manager_node` list makes
`TryConvertToNsxSpec` return the "at least one entry for nsx_manager is
required" error. -/
theorem empty_node_list_rejected :
    ∀ (vip fqdn admin lic : String) (ff audit : Option String) (mgr : Value),
      vip ≠ "" → fqdn ≠ "" → admin ≠ "" → lic ≠ "" → isNilValue mgr = false →
      TryConvertToNsxSpec (some (mkNsxAttrMap vip fqdn admin lic
          (Option.map Value.str ff) (Option.map Value.str audit)
          (some mgr) (.list []))) =
        .err "cannot convert to NsxTSpec, at least one entry for nsx_manager is required" := by
  intro vip fqdn admin lic ff audit mgr h1 h2 h3 h4 h5
  cases ff <;> cases audit <;>
    simp [mkNsxAttrMap, optEntry, TryConvertToNsxSpec, get, lookup,
      requireString, asString, goOptionalString, IsEmpty, asList,
      Res.bind_ite, h1, h2, h3, h4, h5]

/-- C6 amended witness: the empty-node-list error at concrete values. -/
theorem empty_node_list_rejected_witness :
    TryConvertToNsxSpec (some (mkNsxAttrMap "10.0.0.66" "nsx.rainpole.io"
        "Nqkva_parola1" "NSX-KEY" none none (some (.str "present")) (.list []))) =
      .err "cannot convert to NsxTSpec, at least one entry for nsx_manager is required" :=
  empty_node_list_rejected "10.0.0.66" "nsx.rainpole.io" "Nqkva_parola1"
    "NSX-KEY" none none (.str "present")
    (by decide) (by decide) (by decide) (by decide) rfl

end Vcf
